import Mathlib

/-! tondi-dashboard browser extension: background and popup glue

A shallow embedding of `extensions/chrome/background.js` and
`extensions/chrome/popup.js`.

* JavaScript values that reach the code are `JSValue`; `truthy` is the
  language's boolean coercion and `jsOr` its `||` operator.
* Numbers that enter the popup geometry are `JSNumber`: doubles with an
  integer value, the infinities and NaN; `roundToDouble` is the rounding
  that every arithmetic operation of the language ends with.
* A promise is represented by the way it settles (`Settled`).
* Calls into the host (`chrome.*`, `console.log`, the module loader) are
  recorded, in program order, as `Effect`s.
* The two top-level `async` blocks are step functions over a program
  counter; `bgStates` and `popupStates` collect the successive states of a run.
-/

namespace TondiDashboard

/-! ## Values -/

/-- JavaScript values that can be passed as `args`. Numbers are integers. -/
inductive JSValue where
  | undefined : JSValue
  | null : JSValue
  | bool (b : Bool) : JSValue
  | num (n : Int) : JSValue
  | str (s : String) : JSValue
  | arr (xs : List JSValue) : JSValue

/-- Boolean coercion: `undefined`, `null`, `false`, `0` and `""` are falsy,
everything else (every array included, also the empty one) is truthy. -/
def JSValue.truthy : JSValue → Bool
  | .undefined => false
  | .null => false
  | .bool b => b
  | .num n => n != 0
  | .str s => s != ""
  | .arr _ => true

/-- The operator `a || b`: `a` when it is truthy, otherwise `b`. -/
def jsOr (a b : JSValue) : JSValue :=
  if a.truthy then a else b

/-! ## Numbers -/

/-- Numbers of the language whose value is an integer, the two infinities
and NaN. -/
inductive JSNumber where
  | int (n : Int) : JSNumber
  | posInf : JSNumber
  | negInf : JSNumber
  | nan : JSNumber

/-- The test `Number.isSafeInteger`: magnitude at most `2^53 - 1`. -/
def isSafeInteger (n : Int) : Bool :=
  decide (n.natAbs < 2 ^ 53)

/-- The exponent `e` of the spacing `2^e` of the doubles around the
magnitude `m`: the least `e` with `m / 2^e < 2^53`, searched up to `fuel`. -/
def ulpExponent : Nat → Nat → Nat
  | 0, _ => 0
  | fuel + 1, m => if m < 2 ^ 53 then 0 else ulpExponent fuel (m / 2) + 1

/-- The double nearest to the magnitude `m`, ties going to the even
significand; `none` when it is beyond the largest finite double,
`(2^53 - 1) * 2^971`. A search of 1024 steps is enough: a magnitude it does
not exhaust is beyond that double. -/
def roundMagnitude (m : Nat) : Option Nat :=
  let e := ulpExponent 1024 m
  let q := m / 2 ^ e
  let r := m % 2 ^ e
  let q1 := if 2 ^ e < 2 * r ∨ (2 * r = 2 ^ e ∧ q % 2 = 1) then q + 1 else q
  if e < 971 ∨ (e = 971 ∧ q1 < 2 ^ 53) then some (q1 * 2 ^ e) else none

/-- The number that an operation with the exact integer result `n` yields:
`n` rounded to the nearest double, an infinity on overflow. -/
def roundToDouble (n : Int) : JSNumber :=
  match roundMagnitude n.natAbs with
  | some v => .int (if n < 0 then -(v : Int) else (v : Int))
  | none => if n < 0 then .negInf else .posInf

/-- The operator `a + b` on numbers. -/
def JSNumber.add : JSNumber → JSNumber → JSNumber
  | .int a, .int b => roundToDouble (a + b)
  | .nan, _ => .nan
  | _, .nan => .nan
  | .posInf, .negInf => .nan
  | .negInf, .posInf => .nan
  | .posInf, _ => .posInf
  | _, .posInf => .posInf
  | .negInf, _ => .negInf
  | _, .negInf => .negInf

/-- The operator `a - b` on numbers. -/
def JSNumber.sub : JSNumber → JSNumber → JSNumber
  | .int a, .int b => roundToDouble (a - b)
  | .nan, _ => .nan
  | _, .nan => .nan
  | .posInf, .posInf => .nan
  | .negInf, .negInf => .nan
  | .posInf, _ => .posInf
  | _, .negInf => .posInf
  | .negInf, _ => .negInf
  | _, .posInf => .negInf

/-- The function `Math.max(a, b)`. -/
def JSNumber.mathMax : JSNumber → JSNumber → JSNumber
  | .nan, _ => .nan
  | _, .nan => .nan
  | .posInf, _ => .posInf
  | _, .posInf => .posInf
  | .negInf, b => b
  | a, .negInf => a
  | .int a, .int b => .int (max a b)

/-- The comparison `0 <= a`. -/
def JSNumber.nonneg : JSNumber → Bool
  | .int n => decide (0 ≤ n)
  | .posInf => true
  | .negInf => false
  | .nan => false

/-! ## Promises -/

/-- Reasons with which a host promise rejects. -/
inductive HostError where
  | noTab (tabId : Int) : HostError
  | loadFailure (path : String) : HostError
  | other (msg : String) : HostError

/-- How a promise settles (or that it never does). -/
inductive Settled (α : Type) where
  | pending : Settled α
  | fulfilled (v : α) : Settled α
  | rejected (e : HostError) : Settled α

/-! ## Host surface -/

/-- Reference to a function of another module. -/
structure FuncRef where
  module : String
  name : String

/-- The binding `import {apiBuilder} from "./api.js"`. -/
def apiBuilder : FuncRef := ⟨"./api.js", "apiBuilder"⟩

/-- Execution worlds of `chrome.scripting`. -/
inductive ExecutionWorld where
  | ISOLATED : ExecutionWorld
  | MAIN : ExecutionWorld

/-- The `target` object of an injection. -/
structure InjectionTarget where
  tabId : Int

/-- Argument object of `chrome.scripting.executeScript`. -/
structure ScriptInjection where
  args : JSValue
  target : InjectionTarget
  world : ExecutionWorld
  func : FuncRef

/-- The fields of a window that the code reads, for a window whose fields
are integers. The host reports them as numbers, so each is itself a double. -/
structure Window where
  left : Int
  width : Int

/-- Argument object of `chrome.windows.create`. -/
structure CreateData where
  url : String
  focused : Bool
  left : JSNumber
  width : Int
  height : Int
  type : String

/-- The namespace `chrome.action`; `openPopup` is `none` where the browser
does not offer the function, otherwise the settlement of the promise a call
returns. -/
structure ActionApi where
  openPopup : Option (Settled Unit)

/-- What the code can observe of the browser. -/
structure Host where
  /-- The namespace `chrome.action`, absent on some platforms. -/
  action : Option ActionApi
  /-- Settlement of `chrome.windows.getCurrent()`. -/
  windowsGetCurrent : Settled Window
  /-- Settlement of `chrome.windows.create(..)`. -/
  windowsCreate : Settled Unit
  /-- Ids of the tabs that are open. -/
  openTabs : List Int
  /-- The global `location`. -/
  location : JSValue

/-- The host's answer to `chrome.scripting.executeScript`: the promise
rejects when the target tab does not exist. -/
def Host.executeScript (host : Host) (inj : ScriptInjection) : Settled Unit :=
  if inj.target.tabId ∈ host.openTabs then .fulfilled () else .rejected (.noTab inj.target.tabId)

/-- Calls that leave the code, in program order. -/
inductive Effect where
  | consoleLog (items : List JSValue) : Effect
  | executeScript (inj : ScriptInjection) : Effect
  | actionOpenPopup : Effect
  | windowsGetCurrent : Effect
  | windowsCreate (data : CreateData) : Effect
  | setGlobal (name : String) : Effect
  | init (path : String) : Effect
  | callEntry (name : String) : Effect

/-- The injection carried by an effect, if it is one. -/
def Effect.injection? : Effect → Option ScriptInjection
  | .executeScript inj => some inj
  | _ => none

/-- The window-creation request carried by an effect, if it is one. -/
def Effect.creation? : Effect → Option CreateData
  | .windowsCreate d => some d
  | _ => none

/-- Whether the effect is a console record. -/
def Effect.isLog : Effect → Bool
  | .consoleLog _ => true
  | _ => false

/-- Whether the effect is a call of the native action popup. -/
def Effect.isActionOpenPopup : Effect → Bool
  | .actionOpenPopup => true
  | _ => false

/-- Whether the effect is a query of the current window. -/
def Effect.isWindowsGetCurrent : Effect → Bool
  | .windowsGetCurrent => true
  | _ => false

/-- Whether the effect is a call of the module loader. -/
def Effect.isInit : Effect → Bool
  | .init _ => true
  | _ => false

/-- Whether the effect is the call of the named entry operation. -/
def Effect.isCallEntry (name : String) : Effect → Bool
  | .callEntry n => n == name
  | _ => false

/-- How a synchronous call ends. -/
inductive Completion where
  | returned (v : JSValue) : Completion
  | threw (e : HostError) : Completion

/-- Outcome of one call of a synchronous function: its effects, how it ends,
and the promises it received and dropped without awaiting them or attaching
a handler. -/
structure SyncCall where
  effects : List Effect
  completion : Completion
  floating : List (Settled Unit)

/-- Outcome of one call of an `async` function: its effects, the settlement
of the promise it returns, and the promises it dropped. -/
structure AsyncCall where
  effects : List Effect
  promise : Settled Unit
  floating : List (Settled Unit)

/-! ## background.js: the two entry points -/

/-- The function `initPageScript(tabId, args)`, lines 6 to 18. -/
def initPageScript (host : Host) (tabId : Int) (args : JSValue) : SyncCall :=
  let inj : ScriptInjection :=
    { args := jsOr args (.arr []),
      target := { tabId := tabId },
      world := .MAIN,
      func := apiBuilder }
  { effects :=
      [ .consoleLog [.str "*** initPageScript", .num tabId, args],
        .consoleLog [.str "*** location", host.location],
        .executeScript inj ],
    completion := .returned .undefined,
    floating := [host.executeScript inj] }

/-- The test `chrome.action?.openPopup`: the function, when both the
namespace and the function exist. -/
def Host.actionOpenPopup? (host : Host) : Option (Settled Unit) :=
  match host.action with
  | none => none
  | some a => a.openPopup

/-- The function `openPopup()`, lines 21 to 30. -/
def openPopup (host : Host) : AsyncCall :=
  match host.actionOpenPopup? with
  | some p =>
    { effects := [.actionOpenPopup], promise := .fulfilled (), floating := [p] }
  | none =>
    match host.windowsGetCurrent with
    | .pending =>
      { effects := [.windowsGetCurrent], promise := .pending, floating := [] }
    | .rejected e =>
      { effects := [.windowsGetCurrent], promise := .rejected e, floating := [] }
    | .fulfilled win =>
      let width : Int := 400
      let left : JSNumber :=
        JSNumber.mathMax (.int 0)
          (JSNumber.sub (JSNumber.add (.int win.left) (.int win.width)) (.int width))
      { effects :=
          [ .windowsGetCurrent,
            .windowsCreate
              { url := "popup.html", focused := true, left := left, width := width,
                height := 600, type := "panel" } ],
        promise := .fulfilled (),
        floating := [host.windowsCreate] }

/-! ## The hosted module -/

/-- The object to which `init(..)` resolves: each entry operation is
represented by the settlement of the promise its call returns. -/
structure ModuleHandle where
  tondi_dashboard_background : Settled Unit
  tondi_dashboard_main : Settled Unit

/-- What a process meets when it runs: the settlement of the loader's
promise. -/
structure Env where
  load : Settled ModuleHandle

/-! ## background.js: the top-level block, lines 4 to 41 -/

/-- Positions of the background block. A position at an `await` carries the
promise awaited. -/
inductive BgPc where
  /-- Line 32 is next. -/
  | start : BgPc
  /-- Line 32 done, line 33 is next. -/
  | installedInitPageScript : BgPc
  /-- Line 33 done, line 35 is next. -/
  | installedOpenPopup : BgPc
  /-- Line 35: `init(..)` called, suspended on its promise. -/
  | awaitingLoad (p : Settled ModuleHandle) : BgPc
  /-- Line 35 done: `tondi_dashboard` bound, line 40 is next. -/
  | loaded (h : ModuleHandle) : BgPc
  /-- Line 40: the entry operation called, suspended on its promise. -/
  | awaitingEntry (p : Settled Unit) : BgPc
  /-- The block ran to its end. -/
  | finished : BgPc
  /-- The `await` of line 35 threw. -/
  | loadFailed (e : HostError) : BgPc
  /-- The `await` of line 40 threw. -/
  | entryFailed (e : HostError) : BgPc

/-- State of the background process. -/
structure BgState where
  pc : BgPc
  /-- Names assigned on `globalThis`, latest first. -/
  globals : List String
  /-- Effects so far, oldest first. -/
  trace : List Effect

/-- The background process before its first statement. -/
def BgState.initial : BgState :=
  { pc := .start, globals := [], trace := [] }

/-- One step of the background block; `none` when the block is suspended on
a promise that does not settle, or has ended. -/
def bgStep (env : Env) (s : BgState) : Option BgState :=
  match s.pc with
  | .start =>
    some { pc := .installedInitPageScript,
           globals := "initPageScript" :: s.globals,
           trace := s.trace ++ [.setGlobal "initPageScript"] }
  | .installedInitPageScript =>
    some { pc := .installedOpenPopup,
           globals := "openPopup" :: s.globals,
           trace := s.trace ++ [.setGlobal "openPopup"] }
  | .installedOpenPopup =>
    some { s with pc := .awaitingLoad env.load,
                  trace := s.trace ++ [.init "/tondi-dashboard_bg.wasm"] }
  | .awaitingLoad .pending => none
  | .awaitingLoad (.fulfilled h) => some { s with pc := .loaded h }
  | .awaitingLoad (.rejected e) => some { s with pc := .loadFailed e }
  | .loaded h =>
    some { s with pc := .awaitingEntry h.tondi_dashboard_background,
                  trace := s.trace ++ [.callEntry "tondi_dashboard_background"] }
  | .awaitingEntry .pending => none
  | .awaitingEntry (.fulfilled _) => some { s with pc := .finished }
  | .awaitingEntry (.rejected e) => some { s with pc := .entryFailed e }
  | .finished => none
  | .loadFailed _ => none
  | .entryFailed _ => none

/-- The states a run passes through from `s`, `s` first, for at most `fuel`
steps. -/
def bgRun (env : Env) : Nat → BgState → List BgState
  | 0, s => [s]
  | fuel + 1, s =>
    match bgStep env s with
    | none => [s]
    | some t => s :: bgRun env fuel t

/-- The states of a run of the background process. The block has six
statement boundaries, so eight steps exhaust it. -/
def bgStates (env : Env) : List BgState :=
  bgRun env 8 BgState.initial

/-- The last state of a run of the background process. -/
def bgFinal (env : Env) : BgState :=
  (bgStates env).getLast?.getD BgState.initial

/-- The phases of the background process. -/
inductive Phase where
  | Starting : Phase
  | Ready : Phase
  | Running : Phase
  deriving DecidableEq

/-- The phase a position belongs to: `Starting` while the load is in
flight, `Ready` once the handle is bound, `Running` once the background
entry operation has been called. -/
def BgPc.phase? : BgPc → Option Phase
  | .awaitingLoad _ => some .Starting
  | .loaded _ => some .Ready
  | .awaitingEntry _ => some .Running
  | _ => none

/-- Whether the loader's promise has resolved successfully at a position. -/
def BgPc.loadResolved : BgPc → Bool
  | .loaded _ => true
  | .awaitingEntry _ => true
  | .finished => true
  | .entryFailed _ => true
  | _ => false

/-- Whether the loader has been called at a position. -/
def BgPc.loadIssued : BgPc → Bool
  | .start => false
  | .installedInitPageScript => false
  | .installedOpenPopup => false
  | _ => true

/-- Whether a name can be called through `globalThis`. -/
def BgState.reachable (s : BgState) (name : String) : Bool :=
  s.globals.contains name

/-! ## popup.js: the top-level block, lines 35 to 40 -/

/-- Positions of the popup block. -/
inductive PopupPc where
  /-- Line 36 is next. -/
  | start : PopupPc
  /-- Line 36: `init(..)` called, suspended on its promise. -/
  | awaitingLoad (p : Settled ModuleHandle) : PopupPc
  /-- Line 36 done: `tondi_dashboard` bound, line 39 is next. -/
  | loaded (h : ModuleHandle) : PopupPc
  /-- Line 39: the entry operation called, suspended on its promise. -/
  | awaitingEntry (p : Settled Unit) : PopupPc
  /-- The block ran to its end. -/
  | finished : PopupPc
  /-- The `await` of line 36 threw. -/
  | loadFailed (e : HostError) : PopupPc
  /-- The `await` of line 39 threw. -/
  | entryFailed (e : HostError) : PopupPc

/-- State of the popup process. -/
structure PopupState where
  pc : PopupPc
  /-- Effects so far, oldest first. -/
  trace : List Effect

/-- The popup process before its first statement. -/
def PopupState.initial : PopupState :=
  { pc := .start, trace := [] }

/-- One step of the popup block. -/
def popupStep (env : Env) (s : PopupState) : Option PopupState :=
  match s.pc with
  | .start =>
    some { pc := .awaitingLoad env.load,
           trace := s.trace ++ [.init "/tondi-dashboard_bg.wasm"] }
  | .awaitingLoad .pending => none
  | .awaitingLoad (.fulfilled h) => some { s with pc := .loaded h }
  | .awaitingLoad (.rejected e) => some { s with pc := .loadFailed e }
  | .loaded h =>
    some { pc := .awaitingEntry h.tondi_dashboard_main,
           trace := s.trace ++ [.callEntry "tondi_dashboard_main"] }
  | .awaitingEntry .pending => none
  | .awaitingEntry (.fulfilled _) => some { s with pc := .finished }
  | .awaitingEntry (.rejected e) => some { s with pc := .entryFailed e }
  | .finished => none
  | .loadFailed _ => none
  | .entryFailed _ => none

/-- The states a run of the popup block passes through from `s`. -/
def popupRun (env : Env) : Nat → PopupState → List PopupState
  | 0, s => [s]
  | fuel + 1, s =>
    match popupStep env s with
    | none => [s]
    | some t => s :: popupRun env fuel t

/-- The states of a run of the popup process. -/
def popupStates (env : Env) : List PopupState :=
  popupRun env 6 PopupState.initial

/-- The last state of a run of the popup process. -/
def popupFinal (env : Env) : PopupState :=
  (popupStates env).getLast?.getD PopupState.initial

/-- Whether the entry operation has been called at a position. -/
def PopupPc.entryCalled : PopupPc → Bool
  | .awaitingEntry _ => true
  | .finished => true
  | .entryFailed _ => true
  | _ => false

/-- The names an effect assigns on `globalThis`. -/
def Effect.global? : Effect → Option String
  | .setGlobal n => some n
  | _ => none

/-- The background process after another part of the extension has called
one of its functions: the call's effects join the trace and the names they
assign join the globals; the position of the block is as before. -/
def BgState.afterCall (s : BgState) (effects : List Effect) : BgState :=
  { s with trace := s.trace ++ effects,
           globals := (effects.filterMap Effect.global?).reverse ++ s.globals }

/-- The effects that follow the first injection request of a trace. -/
def afterInjection : List Effect → List Effect
  | [] => []
  | .executeScript _ :: es => es
  | _ :: es => afterInjection es

/-- The states that follow the call of the background entry operation,
according to the settlement of its promise. -/
def bgTail (p : Settled Unit) : List BgState :=
  match p with
  | .pending => []
  | .fulfilled _ =>
    [⟨.finished, ["openPopup", "initPageScript"],
      [.setGlobal "initPageScript", .setGlobal "openPopup",
       .init "/tondi-dashboard_bg.wasm", .callEntry "tondi_dashboard_background"]⟩]
  | .rejected e =>
    [⟨.entryFailed e, ["openPopup", "initPageScript"],
      [.setGlobal "initPageScript", .setGlobal "openPopup",
       .init "/tondi-dashboard_bg.wasm", .callEntry "tondi_dashboard_background"]⟩]

/-! ## Runs, case by case -/

theorem bgStates_pending :
    bgStates ⟨.pending⟩ =
      [ ⟨.start, [], []⟩,
        ⟨.installedInitPageScript, ["initPageScript"], [.setGlobal "initPageScript"]⟩,
        ⟨.installedOpenPopup, ["openPopup", "initPageScript"],
          [.setGlobal "initPageScript", .setGlobal "openPopup"]⟩,
        ⟨.awaitingLoad .pending, ["openPopup", "initPageScript"],
          [.setGlobal "initPageScript", .setGlobal "openPopup",
           .init "/tondi-dashboard_bg.wasm"]⟩ ] := by
  rfl

theorem bgStates_rejected (e : HostError) :
    bgStates ⟨.rejected e⟩ =
      [ ⟨.start, [], []⟩,
        ⟨.installedInitPageScript, ["initPageScript"], [.setGlobal "initPageScript"]⟩,
        ⟨.installedOpenPopup, ["openPopup", "initPageScript"],
          [.setGlobal "initPageScript", .setGlobal "openPopup"]⟩,
        ⟨.awaitingLoad (.rejected e), ["openPopup", "initPageScript"],
          [.setGlobal "initPageScript", .setGlobal "openPopup",
           .init "/tondi-dashboard_bg.wasm"]⟩,
        ⟨.loadFailed e, ["openPopup", "initPageScript"],
          [.setGlobal "initPageScript", .setGlobal "openPopup",
           .init "/tondi-dashboard_bg.wasm"]⟩ ] := by
  rfl

theorem bgStates_fulfilled (h : ModuleHandle) :
    bgStates ⟨.fulfilled h⟩ =
      [ ⟨.start, [], []⟩,
        ⟨.installedInitPageScript, ["initPageScript"], [.setGlobal "initPageScript"]⟩,
        ⟨.installedOpenPopup, ["openPopup", "initPageScript"],
          [.setGlobal "initPageScript", .setGlobal "openPopup"]⟩,
        ⟨.awaitingLoad (.fulfilled h), ["openPopup", "initPageScript"],
          [.setGlobal "initPageScript", .setGlobal "openPopup",
           .init "/tondi-dashboard_bg.wasm"]⟩,
        ⟨.loaded h, ["openPopup", "initPageScript"],
          [.setGlobal "initPageScript", .setGlobal "openPopup",
           .init "/tondi-dashboard_bg.wasm"]⟩,
        ⟨.awaitingEntry h.tondi_dashboard_background, ["openPopup", "initPageScript"],
          [.setGlobal "initPageScript", .setGlobal "openPopup",
           .init "/tondi-dashboard_bg.wasm", .callEntry "tondi_dashboard_background"]⟩ ]
        ++ bgTail h.tondi_dashboard_background := by
  rcases h with ⟨_ | _ | _, m⟩ <;> rfl

/-- Eight steps exhaust the background block: its last state cannot step. -/
theorem bgFinal_quiescent (env : Env) : bgStep env (bgFinal env) = none := by
  rcases env with ⟨_ | ⟨⟨_ | _ | _, m⟩⟩ | _⟩ <;> rfl

/-- Six steps exhaust the popup block: its last state cannot step. -/
theorem popupFinal_quiescent (env : Env) : popupStep env (popupFinal env) = none := by
  rcases env with ⟨_ | ⟨⟨b, _ | _ | _⟩⟩ | _⟩ <;> rfl

theorem actionOpenPopup?_setWindow (host : Host) (p : Settled Window) :
    Host.actionOpenPopup? { host with windowsGetCurrent := p } = host.actionOpenPopup? := by
  rfl

/-! ## Exact arithmetic on safe integers -/

theorem ulpExponent_safe (fuel m : Nat) (h : m < 2 ^ 53) : ulpExponent fuel m = 0 := by
  cases fuel
  · rfl
  · simp only [ulpExponent, if_pos h]

theorem roundMagnitude_safe (m : Nat) (h : m < 2 ^ 53) : roundMagnitude m = some m := by
  simp [roundMagnitude, ulpExponent_safe _ _ h, Nat.mod_one]

/-- A safe integer is a double: rounding leaves it as it is. -/
theorem roundToDouble_safe (n : Int) (h : isSafeInteger n = true) :
    roundToDouble n = .int n := by
  have h1 : n.natAbs < 2 ^ 53 := by simpa [isSafeInteger] using h
  unfold roundToDouble
  rw [roundMagnitude_safe _ h1]
  simp only
  congr 1
  split <;> omega

/-- Rounding yields an integer or an infinity. -/
theorem roundToDouble_cases (n : Int) :
    (∃ a, roundToDouble n = .int a) ∨ roundToDouble n = .posInf
      ∨ roundToDouble n = .negInf := by
  unfold roundToDouble
  cases roundMagnitude n.natAbs with
  | some v => exact Or.inl ⟨_, rfl⟩
  | none =>
    by_cases hn : n < 0
    · simp [hn]
    · simp [hn]

/-- The expression `Math.max(0, l + w - 400)` is never negative. -/
theorem popupLeft_nonneg (l w : Int) :
    (JSNumber.mathMax (.int 0)
      (JSNumber.sub (JSNumber.add (.int l) (.int w)) (.int 400))).nonneg = true := by
  rcases roundToDouble_cases (l + w) with ⟨a, ha⟩ | ha | ha
  · rcases roundToDouble_cases (a - 400) with ⟨c, hc⟩ | hc | hc <;>
      simp [JSNumber.add, JSNumber.sub, JSNumber.mathMax, JSNumber.nonneg, ha, hc]
  · simp [JSNumber.add, JSNumber.sub, JSNumber.mathMax, JSNumber.nonneg, ha]
  · simp [JSNumber.add, JSNumber.sub, JSNumber.mathMax, JSNumber.nonneg, ha]

/-- The expression `Math.max(0, l + w - 400)` is exact when `l + w` and
`l + w - 400` are safe integers. -/
theorem popupLeft_exact (l w : Int) (hsum : isSafeInteger (l + w) = true)
    (hdiff : isSafeInteger (l + w - 400) = true) :
    JSNumber.mathMax (.int 0) (JSNumber.sub (JSNumber.add (.int l) (.int w)) (.int 400))
      = .int (max 0 (l + w - 400)) := by
  simp [JSNumber.add, JSNumber.sub, JSNumber.mathMax, roundToDouble_safe _ hsum,
    roundToDouble_safe _ hdiff]

theorem roundMagnitude_above_safe :
    roundMagnitude 9007199254741393 = some 9007199254741392
      ∧ roundMagnitude 9007199254740995 = some 9007199254740996
      ∧ roundMagnitude 9007199254740992 = some 9007199254740992
      ∧ roundMagnitude 9007199254740596 = some 9007199254740596 := by
  decide

/-! ## The popup launcher -/

/-- C1, as stated, fails: for the window at left `2^53` of width 401 the
request of `openPopup` has left `2^53`, not
`max(0, 2^53 + 401 - 400) = 2^53 + 1`: the sum `2^53 + 401` is no double
and is rounded to `2^53 + 400`. -/
theorem openPopup_fallback_request_rounded :
    (openPopup ⟨none, .fulfilled ⟨9007199254740992, 401⟩, .pending, [],
        .undefined⟩).effects.filterMap Effect.creation? =
        [{ url := "popup.html", type := "panel", focused := true, width := 400,
           height := 600, left := .int 9007199254740992 }]
      ∧ (9007199254740992 : Int) ≠ max 0 (9007199254740992 + 401 - 400) := by
  constructor
  · simp [openPopup, Host.actionOpenPopup?, Effect.creation?, JSNumber.add, JSNumber.sub,
      JSNumber.mathMax, roundToDouble, roundMagnitude_above_safe.1,
      roundMagnitude_above_safe.2.2.1]
  · decide

/-- C1, amended: when the host offers no native action popup and the
current window is `win`, with `win.left + win.width` and
`win.left + win.width - 400` safe integers, `openPopup` issues exactly one
window-creation request, namely `{url: "popup.html", type: "panel",
focused: true, width: 400, height: 600,
left: max(0, win.left + win.width - 400)}`; for the window at left 100 of
width 1000 the request has left 700, for the window at left 0 of width 300 it
has left 0. -/
theorem openPopup_fallback_request (host : Host) (win : Window)
    (hnative : host.actionOpenPopup? = none)
    (hwin : host.windowsGetCurrent = .fulfilled win)
    (hsum : isSafeInteger (win.left + win.width) = true)
    (hdiff : isSafeInteger (win.left + win.width - 400) = true) :
    (openPopup host).effects.filterMap Effect.creation? =
        [{ url := "popup.html", type := "panel", focused := true, width := 400,
           height := 600, left := .int (max 0 (win.left + win.width - 400)) }]
      ∧ (openPopup { host with windowsGetCurrent := .fulfilled ⟨100, 1000⟩ }).effects.filterMap
          Effect.creation? =
        [{ url := "popup.html", type := "panel", focused := true, width := 400,
           height := 600, left := .int 700 }]
      ∧ (openPopup { host with windowsGetCurrent := .fulfilled ⟨0, 300⟩ }).effects.filterMap
          Effect.creation? =
        [{ url := "popup.html", type := "panel", focused := true, width := 400,
           height := 600, left := .int 0 }] := by
  refine ⟨?_, ?_, ?_⟩
  · simp [openPopup, hnative, hwin, Effect.creation?, popupLeft_exact _ _ hsum hdiff]
  · have h := actionOpenPopup?_setWindow host (.fulfilled ⟨100, 1000⟩)
    rw [hnative] at h
    simp [openPopup, h, Effect.creation?,
      popupLeft_exact 100 1000 (by decide) (by decide)]
  · have h := actionOpenPopup?_setWindow host (.fulfilled ⟨0, 300⟩)
    rw [hnative] at h
    simp [openPopup, h, Effect.creation?, popupLeft_exact 0 300 (by decide) (by decide)]

/-- Witness of C1, amended: a host without `chrome.action` whose current
window is at left 100 with width 1000. -/
theorem openPopup_fallback_request_witness :
    (openPopup ⟨none, .fulfilled ⟨100, 1000⟩, .pending, [], .undefined⟩).effects.filterMap
        Effect.creation? =
      [{ url := "popup.html", type := "panel", focused := true, width := 400,
         height := 600, left := .int 700 }] := by
  have h := (openPopup_fallback_request
    ⟨none, .fulfilled ⟨100, 1000⟩, .pending, [], .undefined⟩ ⟨100, 1000⟩ rfl rfl
    (by decide) (by decide)).1
  simpa using h

/-- C3: when the host offers the native action popup, `openPopup` calls it
exactly once and does nothing else: no query of the current window, no
window-creation request. -/
theorem openPopup_native_only (host : Host) (p : Settled Unit)
    (hnative : host.actionOpenPopup? = some p) :
    (openPopup host).effects = [.actionOpenPopup]
      ∧ ((openPopup host).effects.filter Effect.isActionOpenPopup).length = 1
      ∧ (openPopup host).effects.filter Effect.isWindowsGetCurrent = []
      ∧ (openPopup host).effects.filterMap Effect.creation? = [] := by
  simp [openPopup, hnative, Effect.isActionOpenPopup, Effect.isWindowsGetCurrent,
    Effect.creation?]

/-- Witness of C3: a host whose `chrome.action.openPopup` exists. -/
theorem openPopup_native_only_witness :
    (openPopup ⟨some ⟨some (.fulfilled ())⟩, .fulfilled ⟨100, 1000⟩, .pending, [],
        .undefined⟩).effects = [.actionOpenPopup] :=
  (openPopup_native_only
    ⟨some ⟨some (.fulfilled ())⟩, .fulfilled ⟨100, 1000⟩, .pending, [], .undefined⟩
    (.fulfilled ()) rfl).1

/-- C9, as stated, fails: for the window at left `2^53 + 2` of width 1 the
request of `openPopup` has left `2^53 - 396`, so that the right edge of the
popup is at `2^53 + 4` and that of the window at `2^53 + 3`, although
`left + width >= 400`: the sum `2^53 + 3` is no double and is rounded to
`2^53 + 4`. -/
theorem openPopup_fallback_geometry_rounded :
    (openPopup ⟨none, .fulfilled ⟨9007199254740994, 1⟩, .pending, [],
        .undefined⟩).effects.filterMap Effect.creation? =
        [{ url := "popup.html", type := "panel", focused := true, width := 400,
           height := 600, left := .int 9007199254740596 }]
      ∧ (400 : Int) ≤ 9007199254740994 + 1
      ∧ (9007199254740596 : Int) + 400 ≠ 9007199254740994 + 1 := by
  refine ⟨?_, by decide, by decide⟩
  simp [openPopup, Host.actionOpenPopup?, Effect.creation?, JSNumber.add, JSNumber.sub,
    JSNumber.mathMax, roundToDouble, roundMagnitude_above_safe.2.1,
    roundMagnitude_above_safe.2.2.2]

/-- C9, amended: on the fallback path the request of `openPopup` has a left
of at least 0, for every window with integer fields; when
`win.left + win.width` and `win.left + win.width - 400` are safe integers,
its right edge (left + 400) equals the right edge of the current window
exactly when `win.left + win.width >= 400`, and when
`win.left + win.width < 400` its left is 0 and its right edge lies strictly
to the right of the right edge of the current window. -/
theorem openPopup_fallback_geometry (host : Host) (win : Window)
    (hnative : host.actionOpenPopup? = none)
    (hwin : host.windowsGetCurrent = .fulfilled win) :
    ∃ d : CreateData,
      (openPopup host).effects.filterMap Effect.creation? = [d]
        ∧ d.width = 400
        ∧ d.left.nonneg = true
        ∧ (isSafeInteger (win.left + win.width) = true →
            isSafeInteger (win.left + win.width - 400) = true →
            ∃ n : Int, d.left = .int n
              ∧ 0 ≤ n
              ∧ (n + d.width = win.left + win.width ↔ 400 ≤ win.left + win.width)
              ∧ (win.left + win.width < 400 →
                  n = 0 ∧ win.left + win.width < n + d.width)) := by
  refine ⟨{ url := "popup.html", type := "panel", focused := true, width := 400,
            height := 600,
            left := JSNumber.mathMax (.int 0)
              (JSNumber.sub (JSNumber.add (.int win.left) (.int win.width)) (.int 400)) },
          ?_, rfl, popupLeft_nonneg _ _, ?_⟩
  · simp [openPopup, hnative, hwin, Effect.creation?]
  · intro hsum hdiff
    refine ⟨max 0 (win.left + win.width - 400), popupLeft_exact _ _ hsum hdiff,
      le_max_left _ _, ?_, ?_⟩
    · show max 0 (win.left + win.width - 400) + 400 = win.left + win.width ↔ _
      constructor
      · intro h
        have := le_max_left (0 : Int) (win.left + win.width - 400)
        omega
      · intro h
        rw [max_eq_right (by omega)]
        omega
    · intro h
      show max 0 (win.left + win.width - 400) = 0
        ∧ _ < max 0 (win.left + win.width - 400) + 400
      rw [max_eq_left (by omega)]
      omega

/-- Witness of C9, amended: a window at left -50 of width 300, whose right
edge is at 250; the request has left 0 and its right edge is at 400. -/
theorem openPopup_fallback_geometry_witness :
    ∃ d : CreateData,
      (openPopup ⟨none, .fulfilled ⟨-50, 300⟩, .pending, [], .undefined⟩).effects.filterMap
          Effect.creation? = [d]
        ∧ d.width = 400
        ∧ d.left.nonneg = true
        ∧ ∃ n : Int, d.left = .int n ∧ n = 0 ∧ (-50 : Int) + 300 < n + d.width := by
  obtain ⟨d, hd, hw, hn, h⟩ :=
    openPopup_fallback_geometry ⟨none, .fulfilled ⟨-50, 300⟩, .pending, [], .undefined⟩
      ⟨-50, 300⟩ rfl rfl
  obtain ⟨n, hn1, _, _, hn4⟩ := h (by decide) (by decide)
  exact ⟨d, hd, hw, hn, n, hn1, hn4 (by decide)⟩

/-! ## The capability injector -/

/-- C4: one call of `initPageScript` issues exactly one injection request;
the request targets the given tab, asks for the main world (not for the
isolated one) and carries `apiBuilder`. -/
theorem initPageScript_single_main_injection (host : Host) (tabId : Int) (args : JSValue) :
    ∃ inj : ScriptInjection,
      (initPageScript host tabId args).effects.filterMap Effect.injection? = [inj]
        ∧ inj.target.tabId = tabId
        ∧ inj.world = .MAIN
        ∧ inj.world ≠ .ISOLATED
        ∧ inj.func = apiBuilder :=
  ⟨{ args := jsOr args (.arr []), target := { tabId := tabId }, world := .MAIN,
     func := apiBuilder },
   by simp [initPageScript, Effect.injection?], rfl, rfl, by simp, rfl⟩

/-- C5: for every argument list `xs`, the injection request of
`initPageScript` carries `xs` itself as its `args`. -/
theorem initPageScript_args_unchanged (host : Host) (tabId : Int) (xs : List JSValue) :
    ((initPageScript host tabId (.arr xs)).effects.filterMap Effect.injection?).map
        (fun inj => inj.args) = [.arr xs] := by
  simp [initPageScript, Effect.injection?, jsOr, JSValue.truthy]

/-- C10: with `args` absent (`undefined` or `null`) the injection request
carries the empty list, and with the empty list given it carries the empty
list too. -/
theorem initPageScript_absent_args (host : Host) (tabId : Int) :
    ((initPageScript host tabId .undefined).effects.filterMap Effect.injection?).map
        (fun inj => inj.args) = [.arr []]
      ∧ ((initPageScript host tabId .null).effects.filterMap Effect.injection?).map
        (fun inj => inj.args) = [.arr []]
      ∧ ((initPageScript host tabId (.arr [])).effects.filterMap Effect.injection?).map
        (fun inj => inj.args) = [.arr []] := by
  simp [initPageScript, Effect.injection?, jsOr, JSValue.truthy]

/-- C7, as stated, fails: with no tab open, the call `initPageScript(7)` is
followed by no console record, and the rejected promise of the injection is
dropped. -/
theorem initPageScript_failure_not_logged :
    (¬ ∃ e ∈ afterInjection
          (initPageScript ⟨none, .pending, .pending, [], .undefined⟩ 7 .undefined).effects,
        e.isLog = true)
      ∧ (initPageScript ⟨none, .pending, .pending, [], .undefined⟩ 7 .undefined).floating
          = [.rejected (.noTab 7)] := by
  constructor
  · simp [initPageScript, afterInjection]
  · simp [initPageScript, Host.executeScript]

/-- C7, amended: when the target tab is not open, `initPageScript` returns
`undefined` to its caller without throwing; its effects are the two console
records written before the request and the request itself, with nothing
after it, the same as when the tab is open; the rejected promise is dropped;
and the background process keeps its position and its globals, so that
every entry point reachable before the call is reachable after it. -/
theorem initPageScript_target_gone (host : Host) (tabId : Int) (args : JSValue)
    (s : BgState) (hgone : tabId ∉ host.openTabs) :
    (initPageScript host tabId args).completion = .returned .undefined
      ∧ (initPageScript host tabId args).floating = [.rejected (.noTab tabId)]
      ∧ (initPageScript host tabId args).effects.filter Effect.isLog =
          [ .consoleLog [.str "*** initPageScript", .num tabId, args],
            .consoleLog [.str "*** location", host.location] ]
      ∧ afterInjection (initPageScript host tabId args).effects = []
      ∧ (initPageScript host tabId args).effects =
          (initPageScript { host with openTabs := tabId :: host.openTabs } tabId args).effects
      ∧ (s.afterCall (initPageScript host tabId args).effects).pc = s.pc
      ∧ (s.afterCall (initPageScript host tabId args).effects).globals = s.globals
      ∧ ∀ name, (s.afterCall (initPageScript host tabId args).effects).reachable name
          = s.reachable name := by
  refine ⟨rfl, ?_, ?_, ?_, rfl, rfl, ?_, ?_⟩
  · simp [initPageScript, Host.executeScript, hgone]
  · simp [initPageScript, Effect.isLog]
  · simp [initPageScript, afterInjection]
  · simp [initPageScript, BgState.afterCall, Effect.global?]
  · intro name
    simp [initPageScript, BgState.afterCall, BgState.reachable, Effect.global?]

/-- Witness of C7, amended: tab 7 with only tab 3 open, called while the
background block is suspended on the entry operation. -/
theorem initPageScript_target_gone_witness :
    (initPageScript ⟨none, .pending, .pending, [3], .undefined⟩ 7 (.arr [.num 1])).completion
        = .returned .undefined
      ∧ (initPageScript ⟨none, .pending, .pending, [3], .undefined⟩ 7 (.arr [.num 1])).floating
        = [.rejected (.noTab 7)] :=
  have h := initPageScript_target_gone ⟨none, .pending, .pending, [3], .undefined⟩ 7
    (.arr [.num 1])
    ⟨.awaitingEntry .pending, ["openPopup", "initPageScript"], []⟩ (by decide)
  ⟨h.1, h.2.1⟩

/-! ## The background process -/

/-- Every state of a run from the call of the loader onward has both entry
points among its globals, and its trace starts with the two assignments
followed by the call of the loader. -/
theorem bgStates_issued (env : Env) :
    ∀ s ∈ bgStates env, s.pc.loadIssued = true →
      s.globals = ["openPopup", "initPageScript"]
        ∧ s.trace.take 3 =
            [.setGlobal "initPageScript", .setGlobal "openPopup",
             .init "/tondi-dashboard_bg.wasm"] := by
  rcases env with ⟨_ | h | e⟩
  · rw [bgStates_pending]
    simp [BgPc.loadIssued]
  · rw [bgStates_fulfilled]
    rcases h with ⟨_ | _ | _, m⟩ <;> simp [bgTail, BgPc.loadIssued]
  · rw [bgStates_rejected]
    simp [BgPc.loadIssued]

/-- C2, as stated, fails: while the load is pending, and after it has
failed, the run has a state in which the load has not resolved and both
`initPageScript` and `openPopup` are reachable. -/
theorem bg_entry_points_before_load :
    (∃ s ∈ bgStates ⟨.pending⟩,
        s.pc.loadResolved = false ∧ s.reachable "initPageScript" = true
          ∧ s.reachable "openPopup" = true)
      ∧ (∃ s ∈ bgStates ⟨.rejected (.loadFailure "/tondi-dashboard_bg.wasm")⟩,
        s.pc.loadResolved = false ∧ s.reachable "initPageScript" = true
          ∧ s.reachable "openPopup" = true) := by
  constructor
  · refine ⟨bgFinal ⟨.pending⟩, ?_, rfl, by decide, by decide⟩
    rw [bgStates_pending]; simp [bgFinal, bgStates_pending]
  · refine ⟨bgFinal ⟨.rejected (.loadFailure "/tondi-dashboard_bg.wasm")⟩, ?_, rfl,
      by decide, by decide⟩
    rw [bgStates_rejected]; simp [bgFinal, bgStates_rejected]

/-- C2, amended: in every run of the background block, `initPageScript` and
`openPopup` are assigned on `globalThis` before the loader is called; in
every state from the call of the loader onward both are reachable, whether
the load is pending, has resolved or has failed. -/
theorem bg_entry_points_precede_load (env : Env) (s : BgState) (hs : s ∈ bgStates env)
    (hissued : s.pc.loadIssued = true) :
    s.reachable "initPageScript" = true ∧ s.reachable "openPopup" = true
      ∧ s.trace.take 3 =
          [.setGlobal "initPageScript", .setGlobal "openPopup",
           .init "/tondi-dashboard_bg.wasm"] := by
  have h := bgStates_issued env s hs hissued
  exact ⟨by simp [BgState.reachable, h.1], by simp [BgState.reachable, h.1], h.2⟩

/-- Witness of C2, amended: the state suspended on a load that stays
pending. -/
theorem bg_entry_points_precede_load_witness :
    BgState.reachable
        ⟨.awaitingLoad .pending, ["openPopup", "initPageScript"],
          [.setGlobal "initPageScript", .setGlobal "openPopup",
           .init "/tondi-dashboard_bg.wasm"]⟩ "initPageScript" = true
      ∧ BgState.reachable
        ⟨.awaitingLoad .pending, ["openPopup", "initPageScript"],
          [.setGlobal "initPageScript", .setGlobal "openPopup",
           .init "/tondi-dashboard_bg.wasm"]⟩ "openPopup" = true :=
  have h := bg_entry_points_precede_load ⟨.pending⟩
    ⟨.awaitingLoad .pending, ["openPopup", "initPageScript"],
      [.setGlobal "initPageScript", .setGlobal "openPopup",
       .init "/tondi-dashboard_bg.wasm"]⟩
    (by rw [bgStates_pending]; simp) rfl
  ⟨h.1, h.2.1⟩

/-- C6: every run of the background block calls the loader exactly once.
When the load succeeds, the background entry operation is called exactly
once, after the call of the loader, and the run passes through Starting,
Ready and Running, once each and in this order. In no run is the entry
operation called in a state where the load has not resolved. When the load
fails, the entry operation is never called and no state is Running. -/
theorem bg_load_once_entry_after (env : Env) :
    ((bgFinal env).trace.filter Effect.isInit).length = 1
      ∧ bgStep env (bgFinal env) = none
      ∧ (∀ h, env.load = .fulfilled h →
          ((bgFinal env).trace.filter
              (Effect.isCallEntry "tondi_dashboard_background")).length = 1
            ∧ (bgFinal env).trace =
                [.setGlobal "initPageScript", .setGlobal "openPopup",
                 .init "/tondi-dashboard_bg.wasm", .callEntry "tondi_dashboard_background"]
            ∧ (bgStates env).filterMap (fun s => s.pc.phase?) =
                [.Starting, .Ready, .Running])
      ∧ (∀ s ∈ bgStates env,
          s.trace.any (Effect.isCallEntry "tondi_dashboard_background") = true →
            s.pc.loadResolved = true)
      ∧ (∀ e, env.load = .rejected e →
          ∀ s ∈ bgStates env,
            s.trace.filter (Effect.isCallEntry "tondi_dashboard_background") = []
              ∧ s.pc.phase? ≠ some .Running) := by
  rcases env with ⟨l⟩
  refine ⟨?_, bgFinal_quiescent ⟨l⟩, ?_, ?_, ?_⟩
  · rcases l with _ | ⟨⟨_ | _ | _, m⟩⟩ | _ <;> rfl
  · rintro h (rfl : l = _)
    rcases h with ⟨_ | _ | _, m⟩ <;>
      simp [bgFinal, bgStates_fulfilled, bgTail, Effect.isCallEntry, BgPc.phase?]
  · rcases l with _ | h | e
    · rw [bgStates_pending]
      simp [Effect.isCallEntry]
    · rw [bgStates_fulfilled]
      rcases h with ⟨_ | _ | _, m⟩ <;> simp [bgTail, Effect.isCallEntry, BgPc.loadResolved]
    · rw [bgStates_rejected]
      simp [Effect.isCallEntry]
  · rintro e (rfl : l = _)
    rw [bgStates_rejected]
    simp [Effect.isCallEntry, BgPc.phase?]

/-! ## The popup process -/

/-- C8: every run of the popup block calls the loader exactly once and never
calls the background entry operation. When the load succeeds, the UI entry
operation is called exactly once, after the call of the loader. In no run is
the UI entry operation called in a state where the load has not resolved;
when the load fails it is never called. -/
theorem popup_load_once_ui_entry (env : Env) :
    ((popupFinal env).trace.filter Effect.isInit).length = 1
      ∧ popupStep env (popupFinal env) = none
      ∧ (∀ s ∈ popupStates env,
          s.trace.filter (Effect.isCallEntry "tondi_dashboard_background") = [])
      ∧ (∀ h, env.load = .fulfilled h →
          ((popupFinal env).trace.filter (Effect.isCallEntry "tondi_dashboard_main")).length = 1
            ∧ (popupFinal env).trace =
                [.init "/tondi-dashboard_bg.wasm", .callEntry "tondi_dashboard_main"])
      ∧ (∀ s ∈ popupStates env,
          s.trace.any (Effect.isCallEntry "tondi_dashboard_main") = true →
            s.pc.entryCalled = true ∧ ∃ h, env.load = .fulfilled h)
      ∧ (∀ e, env.load = .rejected e →
          ∀ s ∈ popupStates env,
            s.trace.filter (Effect.isCallEntry "tondi_dashboard_main") = []
              ∧ s.pc.entryCalled = false) := by
  rcases env with ⟨l⟩
  refine ⟨?_, popupFinal_quiescent ⟨l⟩, ?_, ?_, ?_, ?_⟩
  · rcases l with _ | ⟨⟨b, _ | _ | _⟩⟩ | _ <;> rfl
  · rcases l with _ | ⟨⟨b, _ | _ | _⟩⟩ | _ <;>
      simp [popupStates, popupRun, popupStep, PopupState.initial, Effect.isCallEntry]
  · rintro h (rfl : l = _)
    rcases h with ⟨b, _ | _ | _⟩ <;>
      simp [popupFinal, popupStates, popupRun, popupStep, PopupState.initial,
        Effect.isCallEntry]
  · rcases l with _ | ⟨⟨b, _ | _ | _⟩⟩ | _ <;>
      simp [popupStates, popupRun, popupStep, PopupState.initial, Effect.isCallEntry,
        PopupPc.entryCalled]
  · rintro e (rfl : l = _)
    simp [popupStates, popupRun, popupStep, PopupState.initial, Effect.isCallEntry,
      PopupPc.entryCalled]

end TondiDashboard
